import Mathlib

/-!
Shallow embedding of the xslog package (src/xslog.go, the variant with
dynamic LevelVar gates, EnableConsole/EnableFile, ChangeFilePath and Close).

Modelling choices:
* `slog.Level` is an `Int` (Go's `type Level int`): Debug = -4, Info = 0,
  Warn = 4, Error = 8.
* `slog.LevelVar` pointers are modelled by indices (`GateId`) into a heap of
  level values, so that sharing/reallocation of gate instances is observable.
* `*os.File` handles are modelled by indices (`FileId`) into a heap of
  open/closed flags.  Per the documented `os.File.Close` contract, closing an
  already-closed handle returns an error and releases nothing; whether a
  close/mkdir/open system call succeeds otherwise is supplied by an `FS`
  oracle, since the embedding has no real file system.
* `fmt`-style rendering of attribute values is treated as a library service:
  a record's attributes arrive as their already-rendered strings, in order.
-/

/-- Go `slog.LevelDebug`. -/
def LevelDebug : Int := -4

/-- Go `slog.LevelInfo`. -/
def LevelInfo : Int := 0

/-- Go `slog.LevelWarn`. -/
def LevelWarn : Int := 4

/-- Go `slog.LevelError`. -/
def LevelError : Int := 8

/-- Outcomes of the file-system calls an operation may make: does `Close` on
an open handle succeed, does `os.MkdirAll` succeed, does `os.OpenFile`
succeed.  The embedding threads this oracle through every operation that
touches the file system. -/
structure FS where
  closeOk : Bool
  mkdirOk : Bool
  openOk : Bool
deriving Repr, DecidableEq

/-- Pointer to a `slog.LevelVar`: an index into `Heap.gates`. -/
abbrev GateId := Nat

/-- Pointer to an `*os.File`: an index into `Heap.files`. -/
abbrev FileId := Nat

/-- The mutable store: `gates` holds the current value of every allocated
`slog.LevelVar`; `files` holds, for every handle ever opened, whether it is
still open (`true`) or has been closed (`false`). -/
structure Heap where
  gates : List Int
  files : List Bool
deriving Repr, DecidableEq

/-- `new(slog.LevelVar)` followed by `Set(v)`: allocate a fresh gate holding
`v`, returning its id. -/
def Heap.allocGate (hp : Heap) (v : Int) : GateId × Heap :=
  (hp.gates.length, { hp with gates := hp.gates ++ [v] })

/-- `levelVar.Set(v)` through a gate pointer. -/
def Heap.setGate (hp : Heap) (g : GateId) (v : Int) : Heap :=
  { hp with gates := hp.gates.set g v }

/-- `levelVar.Level()` through a gate pointer (0 = Info is the `LevelVar`
zero value; out-of-range ids never arise from the operations below). -/
def Heap.getGate (hp : Heap) (g : GateId) : Int :=
  hp.gates.getD g 0

/-- `os.OpenFile(path, O_CREATE|O_WRONLY|O_APPEND, 0666)` on success:
allocate a fresh open handle. -/
def Heap.openFile (hp : Heap) : FileId × Heap :=
  (hp.files.length, { hp with files := hp.files ++ [true] })

/-- Is the handle currently open? -/
def Heap.isOpen (hp : Heap) (f : FileId) : Bool :=
  hp.files.getD f false

/-- `file.Close()`: on an already-closed handle it returns an error and
changes nothing (the documented `os.File.Close` contract); on an open handle
it succeeds and marks the handle closed when the oracle says the underlying
system call succeeds, and otherwise reports the failure. -/
def Heap.closeFile (hp : Heap) (f : FileId) (closeOk : Bool) : Except String Heap :=
  if hp.isOpen f then
    if closeOk then Except.ok { hp with files := hp.files.set f false }
    else Except.error ("close failed")
  else Except.error ("file already closed")

/-- Go `LogConfig` (the variant with per-sink initial levels). -/
structure LogConfig where
  LogToConsole : Bool
  LogToFile : Bool
  LogFilePath : String
  LevelForFile : Int
  LevelForConsole : Int
deriving Repr, DecidableEq

/-- `TxtColoredHandler`: its `opts.Level` field, a possibly-nil `Leveler`
(always a `*slog.LevelVar` here). The output stream (os.Stdout) and the mutex
carry no state relevant to the embedding. -/
structure TxtColoredHandler where
  gate : Option GateId
deriving Repr, DecidableEq

/-- The `slog.JSONHandler` built for the file sink: its `opts.Level` and the
file handle it writes to. -/
structure JSONHandler where
  gate : Option GateId
  file : FileId
deriving Repr, DecidableEq

/-- `TxtColoredHandler.Enabled`: with no `Level` option every level is
enabled, otherwise `level >= h.opts.Level.Level()`. -/
def TxtColoredHandler.Enabled (hp : Heap) (h : TxtColoredHandler) (level : Int) : Bool :=
  match h.gate with
  | none => true
  | some g => decide (hp.getGate g ≤ level)

/-- `slog.JSONHandler.Enabled`: the stdlib handler defaults its minimum
level to Info when `opts.Level` is nil, else `level >= opts.Level.Level()`. -/
def JSONHandler.Enabled (hp : Heap) (h : JSONHandler) (level : Int) : Bool :=
  match h.gate with
  | none => decide (LevelInfo ≤ level)
  | some g => decide (hp.getGate g ≤ level)

/-- `getLevelColor`. -/
def getLevelColor (level : Int) : Nat :=
  if level = LevelDebug then 35
  else if level = LevelInfo then 34
  else if level = LevelWarn then 33
  else if level = LevelError then 31
  else 37

/-- Helper of Go `slog.Level.String`: `base` when the offset is 0, else the
`%+d`-formatted offset appended. -/
def levelBaseStr (base : String) (val : Int) : String :=
  if val = 0 then base
  else if 0 < val then base ++ ("+") ++ toString val
  else base ++ toString val

/-- Go `slog.Level.String`. -/
def levelString (l : Int) : String :=
  if l < LevelInfo then levelBaseStr ("DEBUG") (l - LevelDebug)
  else if l < LevelWarn then levelBaseStr ("INFO") (l - LevelInfo)
  else if l < LevelError then levelBaseStr ("WARN") (l - LevelWarn)
  else levelBaseStr ("ERROR") (l - LevelError)

/-- `getLevelName` (only the record's level matters). -/
def getLevelName (level : Int) : String :=
  if level = LevelDebug then ("DBG")
  else if level = LevelInfo then ("INF")
  else if level = LevelWarn then ("WRN")
  else if level = LevelError then ("ERR")
  else ((levelString level).take 3).toUpper

/-- `TxtColoredHandler.Handle`: the line written to the stream, including the
newline that `fmt.Fprintln` appends.  `attrs` are the `fmt`-rendered values
of the record's (flattened) attributes, in order. -/
def TxtColoredHandler.Handle (level : Int) (msg : String) (attrs : List String) : String :=
  let levelStr := ("\x1b[") ++ toString (getLevelColor level) ++ ("m") ++ getLevelName level ++ ("\x1b[0m")
  let m := ("[") ++ levelStr ++ ("] ") ++ msg
  let m := if attrs.length > 0 then m ++ (" ") ++ String.intercalate (" ") attrs else m
  m ++ ("\n")

/-- `TxtColoredHandler.WithAttrs` returns the receiver unchanged. -/
def TxtColoredHandler.WithAttrs (h : TxtColoredHandler) (attrs : List (String × String)) : TxtColoredHandler :=
  h

/-- `TxtColoredHandler.WithGroup` returns the receiver unchanged. -/
def TxtColoredHandler.WithGroup (h : TxtColoredHandler) (name : String) : TxtColoredHandler :=
  h

/-- Go `Logger`: the two optional slog loggers (identified by their handlers),
the config, the two `*slog.LevelVar` pointers and the saved file writer. -/
structure Logger where
  consoleLogger : Option TxtColoredHandler
  fileLogger : Option JSONHandler
  config : LogConfig
  consoleLevelVar : Option GateId
  fileLevelVar : Option GateId
  fileWriter : Option FileId
deriving Repr, DecidableEq

/-- `filepath.Split` yields a non-empty directory component iff the path
contains a separator. -/
def hasDirPart (p : String) : Bool :=
  p.data.contains '/'

/-- `NewLogger`: allocate both level vars, set the initial levels, build the
console sink when requested, and for the file sink create the directory if
the path has one, open the file and build the JSON sink. -/
def NewLogger (fs : FS) (config : LogConfig) : Except String (Heap × Logger) :=
  let hp : Heap := ⟨[], []⟩
  let (cg, hp) := hp.allocGate 0
  let (fg, hp) := hp.allocGate 0
  let hp := hp.setGate cg config.LevelForConsole
  let hp := hp.setGate fg config.LevelForFile
  let ml : Logger :=
    { consoleLogger := none, fileLogger := none, config := config,
      consoleLevelVar := some cg, fileLevelVar := some fg, fileWriter := none }
  let ml := if config.LogToConsole then { ml with consoleLogger := some ⟨some cg⟩ } else ml
  if config.LogToFile then
    if hasDirPart config.LogFilePath && !fs.mkdirOk then Except.error ("mkdir failed")
    else if !fs.openOk then Except.error ("open failed")
    else
      let (f, hp) := hp.openFile
      Except.ok (hp, { ml with fileWriter := some f, fileLogger := some ⟨some fg, f⟩ })
  else Except.ok (hp, ml)

/-- `Logger.SetConsoleLevel`. -/
def SetConsoleLevel (st : Heap × Logger) (level : Int) : Heap × Logger :=
  match st.2.consoleLevelVar with
  | some g => (st.1.setGate g level, st.2)
  | none => st

/-- `Logger.SetFileLevel`. -/
def SetFileLevel (st : Heap × Logger) (level : Int) : Heap × Logger :=
  match st.2.fileLevelVar with
  | some g => (st.1.setGate g level, st.2)
  | none => st

/-- `Logger.GetConsoleLevel`. -/
def GetConsoleLevel (st : Heap × Logger) : Int :=
  match st.2.consoleLevelVar with
  | some g => st.1.getGate g
  | none => LevelInfo

/-- `Logger.GetFileLevel`. -/
def GetFileLevel (st : Heap × Logger) : Int :=
  match st.2.fileLevelVar with
  | some g => st.1.getGate g
  | none => LevelInfo

/-- `Logger.EnableConsole`: only when enabling, the flag is off and no console
logger exists does it allocate a fresh level var (reset to the config level)
and build a sink; the flag is always set to `enable`. -/
def EnableConsole (st : Heap × Logger) (enable : Bool) : Heap × Logger :=
  let (hp, ml) := st
  let (hp, ml) :=
    if enable && !ml.config.LogToConsole && ml.consoleLogger.isNone then
      let (g, hp) := hp.allocGate 0
      let hp := hp.setGate g ml.config.LevelForConsole
      (hp, { ml with consoleLevelVar := some g, consoleLogger := some ⟨some g⟩ })
    else (hp, ml)
  (hp, { ml with config := { ml.config with LogToConsole := enable } })

/-- `Logger.EnableFile`.  Disabling while enabled clears the flag and closes
the writer.  Enabling runs its branch only when the flag is off AND
`fileLogger` is nil; the branch re-creates directory/file, allocates a fresh
level var reset to the config level, rebuilds the sink and sets the flag. -/
def EnableFile (fs : FS) (st : Heap × Logger) (enable : Bool) : Except String Unit × Heap × Logger :=
  let (hp, ml) := st
  if !enable && ml.config.LogToFile then
    let ml := { ml with config := { ml.config with LogToFile := false } }
    match ml.fileWriter with
    | some f =>
      match hp.closeFile f fs.closeOk with
      | Except.ok hp => (Except.ok (), hp, ml)
      | Except.error e => (Except.error e, hp, ml)
    | none => (Except.ok (), hp, ml)
  else if enable && !ml.config.LogToFile && ml.fileLogger.isNone then
    if hasDirPart ml.config.LogFilePath && !fs.mkdirOk then (Except.error ("mkdir failed"), hp, ml)
    else if !fs.openOk then (Except.error ("open failed"), hp, ml)
    else
      let (f, hp) := hp.openFile
      let (g, hp) := hp.allocGate 0
      let hp := hp.setGate g ml.config.LevelForFile
      (Except.ok (), hp,
        { ml with fileWriter := some f, fileLevelVar := some g,
                  fileLogger := some ⟨some g, f⟩,
                  config := { ml.config with LogToFile := true } })
  else (Except.ok (), hp, ml)

/-- `Logger.ChangeFilePath`: no-op on an equal path; path-only update when
file logging is off; otherwise close the old writer (abort on failure, the
error wrapped), create the directory, open the new file, and only then update
path, writer and sink (the sink reuses `ml.fileLevelVar`). -/
def ChangeFilePath (fs : FS) (st : Heap × Logger) (newPath : String) : Except String Unit × Heap × Logger :=
  let (hp, ml) := st
  if ml.config.LogFilePath = newPath then (Except.ok (), hp, ml)
  else if !ml.config.LogToFile then
    (Except.ok (), hp, { ml with config := { ml.config with LogFilePath := newPath } })
  else
    let closed : Except String Heap :=
      match ml.fileWriter with
      | some f => hp.closeFile f fs.closeOk
      | none => Except.ok hp
    match closed with
    | Except.error e => (Except.error (("failed to close existing log file: ") ++ e), hp, ml)
    | Except.ok hp =>
      if !fs.mkdirOk then (Except.error ("failed to create directory for new log file"), hp, ml)
      else if !fs.openOk then (Except.error ("failed to open new log file"), hp, ml)
      else
        let (f, hp) := hp.openFile
        (Except.ok (), hp,
          { ml with config := { ml.config with LogFilePath := newPath },
                    fileWriter := some f,
                    fileLogger := some ⟨ml.fileLevelVar, f⟩ })

/-- `Logger.Close`: close the saved writer if there is one. -/
def LoggerClose (fs : FS) (st : Heap × Logger) : Except String Unit × Heap × Logger :=
  match st.2.fileWriter with
  | some f =>
    match st.1.closeFile f fs.closeOk with
    | Except.ok hp => (Except.ok (), hp, st.2)
    | Except.error e => (Except.error e, st.1, st.2)
  | none => (Except.ok (), st.1, st.2)

/-- One call to a severity method (`Debug`/`Info`/`Warn`/`Error`) at slog
level `level`.  Each component is `some r` when the guarded branch invoked
the corresponding slog logger (flag true and logger non-nil); inside, slog
checks the handler's `Enabled` and on success calls `Handle`: for the console
that yields the written line, for the file the emitted record. -/
def logCall (hp : Heap) (ml : Logger) (level : Int) (msg : String) (attrs : List String) :
    Option (Option String) × Option (Option (Int × String × List String)) :=
  ( (if ml.config.LogToConsole then ml.consoleLogger else none).map fun h =>
      if h.Enabled hp level then some (TxtColoredHandler.Handle level msg attrs) else none,
    (if ml.config.LogToFile then ml.fileLogger else none).map fun h =>
      if h.Enabled hp level then some (level, msg, attrs) else none )

/-- Was the console sink invoked (its slog logger called at all)? -/
def consoleInvoked (hp : Heap) (ml : Logger) (level : Int) (msg : String) (attrs : List String) : Bool :=
  (logCall hp ml level msg attrs).1.isSome

/-- Was the file sink invoked? -/
def fileInvoked (hp : Heap) (ml : Logger) (level : Int) (msg : String) (attrs : List String) : Bool :=
  (logCall hp ml level msg attrs).2.isSome

/-- Did the console sink emit a line? -/
def consoleEmitted (hp : Heap) (ml : Logger) (level : Int) (msg : String) (attrs : List String) : Bool :=
  match (logCall hp ml level msg attrs).1 with
  | some (some _) => true
  | _ => false

/-- Did the file sink emit a record? -/
def fileEmitted (hp : Heap) (ml : Logger) (level : Int) (msg : String) (attrs : List String) : Bool :=
  match (logCall hp ml level msg attrs).2 with
  | some (some _) => true
  | _ => false

/-- A runtime-control operation on a Logger (the FS oracle for the call is
part of the operation). -/
inductive LogOp where
  | setConsoleLevel (l : Int)
  | setFileLevel (l : Int)
  | enableConsole (b : Bool)
  | enableFile (fs : FS) (b : Bool)
  | changeFilePath (fs : FS) (p : String)
  | close (fs : FS)
deriving Repr, DecidableEq

/-- Apply one control operation (discarding any returned error, keeping the
resulting state). -/
def applyOp (st : Heap × Logger) : LogOp → Heap × Logger
  | LogOp.setConsoleLevel l => SetConsoleLevel st l
  | LogOp.setFileLevel l => SetFileLevel st l
  | LogOp.enableConsole b => EnableConsole st b
  | LogOp.enableFile fs b => (EnableFile fs st b).2
  | LogOp.changeFilePath fs p => (ChangeFilePath fs st p).2
  | LogOp.close fs => (LoggerClose fs st).2

/-- Apply a sequence of control operations, left to right. -/
def applyOps (st : Heap × Logger) : List LogOp → Heap × Logger
  | [] => st
  | op :: ops => applyOps (applyOp st op) ops

/-- Did the operation succeed? -/
def exOk (r : Except String Unit) : Bool :=
  match r with
  | Except.ok _ => true
  | Except.error _ => false

/-- Writing a gate in range and reading it back yields the written value. -/
theorem getGate_setGate_self (hp : Heap) (g : GateId) (v : Int) (h : g < hp.gates.length) :
    (hp.setGate g v).getGate g = v := by
  simp [Heap.setGate, Heap.getGate, List.getElem?_set_self h]

/-- After marking a handle closed it reads as closed (also out of range,
where the default is closed). -/
theorem isOpen_set_false (hp : Heap) (f : FileId) :
    Heap.isOpen { hp with files := hp.files.set f false } f = false := by
  by_cases h : f < hp.files.length
  · simp [Heap.isOpen, List.getElem?_set_self h]
  · simp [Heap.isOpen, List.set_eq_of_length_le (Nat.le_of_not_lt h),
      List.getElem?_eq_none (Nat.le_of_not_lt h)]

/-- FS oracle on which every system call succeeds. -/
def fsOK : FS := ⟨true, true, true⟩

/-- FS oracle on which opening a file fails. -/
def fsNoOpen : FS := ⟨true, true, false⟩

/-- FS oracle on which closing an open file fails. -/
def fsNoClose : FS := ⟨false, true, true⟩

/-- Concrete configuration for the witnesses: both sinks on, both initial
levels Info (0). -/
def cfg0 : LogConfig :=
  ⟨true, true, ("app.log"), 0, 0⟩

/-- The state `NewLogger` builds from `cfg0` (construction succeeds on
`fsOK`; the fallback value is never reached). -/
def st0 : Heap × Logger :=
  ((NewLogger fsOK cfg0).toOption).getD ⟨⟨[], []⟩, Logger.mk none none cfg0 none none none⟩

/-- A state with file logging currently disabled (after `EnableFile(false)`
on `st0`). -/
def stOff : Heap × Logger :=
  (EnableFile fsOK st0 false).2

/-- Spec-side color table, following the claim's words: Debug=35, Info=34,
Warn=33, Error=31, any other level=37. -/
def specColorCode (level : Int) : Nat :=
  if level = LevelDebug then 35
  else if level = LevelInfo then 34
  else if level = LevelWarn then 33
  else if level = LevelError then 31
  else 37

/-- Spec-side level abbreviations for the four named levels, following the
claim's words: DBG/INF/WRN/ERR. -/
def specAbbrev (level : Int) : String :=
  if level = LevelDebug then ("DBG")
  else if level = LevelInfo then ("INF")
  else if level = LevelWarn then ("WRN")
  else ("ERR")

/-- Spec-side console line, following the claim's words: a bracket, the ANSI
color escape for the level, the abbreviation, the ANSI reset, a closing
bracket and space, the message, then when attributes are present a space and
the space-joined attribute value renderings, then a newline. -/
def specConsoleLine (level : Int) (msg : String) (attrs : List String) : String :=
  ("[") ++ ("\x1b[") ++ toString (specColorCode level) ++ ("m") ++ specAbbrev level
    ++ ("\x1b[0m") ++ ("] ") ++ msg
    ++ (if attrs.isEmpty then ("") else (" ") ++ String.intercalate (" ") attrs)
    ++ ("\n")

/-- Claim C9: the console handler's WithAttrs and WithGroup are identity
operations: for every handler, attribute list and group name they return the
handler itself unchanged, so pre-bound attributes and group names are
discarded and the handler's gating behaviour is unaffected. -/
theorem withAttrs_withGroup_identity (h : TxtColoredHandler)
    (attrs : List (String × String)) (gname : String) (hp : Heap) (level : Int) :
    TxtColoredHandler.WithAttrs h attrs = h
    ∧ TxtColoredHandler.WithGroup h gname = h
    ∧ (TxtColoredHandler.WithAttrs h attrs).Enabled hp level = h.Enabled hp level
    ∧ (TxtColoredHandler.WithGroup h gname).Enabled hp level = h.Enabled hp level :=
  ⟨rfl, rfl, rfl, rfl⟩

/-- Claim C7: ChangeFilePath's early returns are frame-preserving: a call
with the currently stored path returns ok and changes nothing; a call with a
different path while file logging is off returns ok, updates only the stored
path, and touches neither the heap (no file or directory) nor any other
Logger field. -/
theorem changeFilePath_early_returns (fs : FS) (hp : Heap) (ml : Logger) (newPath : String) :
    ChangeFilePath fs (hp, ml) ml.config.LogFilePath = (Except.ok (), hp, ml)
    ∧ (ml.config.LogFilePath ≠ newPath → ml.config.LogToFile = false →
        ChangeFilePath fs (hp, ml) newPath =
          (Except.ok (), hp, { ml with config := { ml.config with LogFilePath := newPath } })) := by
  constructor
  · simp [ChangeFilePath]
  · intro h1 h2
    simp [ChangeFilePath, h1, h2]

/-- Claim C7 witness: on the concrete logger, a same-path call is a no-op,
and with file logging off a path change only stores the new path. -/
theorem changeFilePath_early_returns_witness :
    ChangeFilePath fsOK st0 st0.2.config.LogFilePath = (Except.ok (), st0.1, st0.2)
    ∧ ChangeFilePath fsNoOpen stOff ("c.log") =
        (Except.ok (), stOff.1,
          { stOff.2 with config := { stOff.2.config with LogFilePath := ("c.log") } }) :=
  ⟨(changeFilePath_early_returns fsOK st0.1 st0.2 ("c.log")).1,
   (changeFilePath_early_returns fsNoOpen stOff.1 stOff.2 ("c.log")).2
     (by decide) (by decide)⟩

/-- Claim C5: when file logging is active and closing the current handle
fails, ChangeFilePath returns the failure (wrapped) and aborts atomically:
heap and Logger are exactly as before the call. -/
theorem changeFilePath_close_failure_aborts
    (fs : FS) (hp : Heap) (ml : Logger) (newPath : String) (f : FileId)
    (hne : ml.config.LogFilePath ≠ newPath) (hflag : ml.config.LogToFile = true)
    (hw : ml.fileWriter = some f) (hopen : hp.isOpen f = true)
    (hfail : fs.closeOk = false) :
    (∃ e, (ChangeFilePath fs (hp, ml) newPath).1 =
        Except.error (("failed to close existing log file: ") ++ e))
    ∧ (ChangeFilePath fs (hp, ml) newPath).2 = (hp, ml) := by
  have hstep : ChangeFilePath fs (hp, ml) newPath =
      (Except.error (("failed to close existing log file: ") ++ ("close failed")), hp, ml) := by
    simp [ChangeFilePath, hne, hflag, hw, Heap.closeFile, hopen, hfail]
  rw [hstep]
  exact ⟨⟨("close failed"), rfl⟩, rfl⟩

/-- Claim C5 witness: on the concrete active logger with a failing close, the
path change is aborted with the wrapped error and the state is untouched. -/
theorem changeFilePath_close_failure_witness :
    (∃ e, (ChangeFilePath fsNoClose st0 ("b.log")).1 =
        Except.error (("failed to close existing log file: ") ++ e))
    ∧ (ChangeFilePath fsNoClose st0 ("b.log")).2 = st0 :=
  changeFilePath_close_failure_aborts fsNoClose st0.1 st0.2 ("b.log") 0
    (by decide) (by decide) (by decide) (by decide) (by decide)

/-- Claim C4 counterexample: on the concrete logger with an open file handle,
the first Close() succeeds but the second Close() returns an error
(`fileWriter` is never cleared, so the already-closed handle is closed
again), refuting that both calls return no error. -/
theorem close_twice_counterexample :
    exOk (LoggerClose fsOK st0).1 = true
    ∧ exOk (LoggerClose fsOK (LoggerClose fsOK st0).2).1 = false := by
  exact ⟨rfl, rfl⟩

/-- Claim C4 (amended): Close() releases the file handle at most once.  With
an open handle and a succeeding close system call, the first Close() returns
no error, marks the handle closed and changes nothing else; a second Close()
then re-closes the same handle, which returns an error and releases nothing
(the state is unchanged).  With no handle ever opened, Close() returns no
error and changes nothing, every time. -/
theorem close_releases_at_most_once (fs : FS) (hp : Heap) (ml : Logger) (f : FileId) :
    (ml.fileWriter = some f → hp.isOpen f = true → fs.closeOk = true →
      exOk (LoggerClose fs (hp, ml)).1 = true
      ∧ (LoggerClose fs (hp, ml)).2.2 = ml
      ∧ Heap.isOpen (LoggerClose fs (hp, ml)).2.1 f = false
      ∧ exOk (LoggerClose fs (LoggerClose fs (hp, ml)).2).1 = false
      ∧ (LoggerClose fs (LoggerClose fs (hp, ml)).2).2 = (LoggerClose fs (hp, ml)).2)
    ∧ (ml.fileWriter = none → LoggerClose fs (hp, ml) = (Except.ok (), hp, ml)) := by
  constructor
  · intro hw hopen hok
    have h1 : LoggerClose fs (hp, ml) =
        (Except.ok (), { hp with files := hp.files.set f false }, ml) := by
      simp [LoggerClose, hw, Heap.closeFile, hopen, hok]
    rw [h1]
    refine ⟨rfl, rfl, isOpen_set_false hp f, ?_, ?_⟩
    · simp [LoggerClose, hw, Heap.closeFile, isOpen_set_false, exOk]
    · simp [LoggerClose, hw, Heap.closeFile, isOpen_set_false]
  · intro hw
    simp [LoggerClose, hw]

/-- Claim C4 witness: the amended statement instantiated on the concrete
logger: one release happens, the second call errors and leaves the
once-closed state as it was. -/
theorem close_releases_at_most_once_witness :
    (LoggerClose fsOK st0).2.2 = st0.2
    ∧ Heap.isOpen (LoggerClose fsOK st0).2.1 0 = false
    ∧ (LoggerClose fsOK (LoggerClose fsOK st0).2).2 = (LoggerClose fsOK st0).2 := by
  have h := (close_releases_at_most_once fsOK st0.1 st0.2 0).1
    (by decide) (by decide) (by decide)
  exact ⟨h.2.1, h.2.2.1, h.2.2.2.2⟩

/-- Claim C3 counterexample: on the concrete active logger, when the old
handle closes fine but opening the new path fails, ChangeFilePath returns an
error, yet the file-logging flag is still true (not false as claimed) and the
next logging call still invokes the file sink, attempting a write through the
already-closed handle. -/
theorem changeFilePath_open_failure_counterexample :
    exOk (ChangeFilePath fsNoOpen st0 ("b.log")).1 = false
    ∧ (ChangeFilePath fsNoOpen st0 ("b.log")).2.2.config.LogToFile = true
    ∧ Heap.isOpen (ChangeFilePath fsNoOpen st0 ("b.log")).2.1 0 = false
    ∧ fileInvoked (ChangeFilePath fsNoOpen st0 ("b.log")).2.1
        (ChangeFilePath fsNoOpen st0 ("b.log")).2.2 LevelInfo ("m") [] = true := by
  exact ⟨rfl, rfl, rfl, rfl⟩

/-- Claim C3 (amended): when file logging is active and ChangeFilePath closes
the old handle successfully but then fails to create directories for or open
the new path, it returns an error and the old handle is left closed; however
the Logger itself is completely unchanged — in particular the file-logging
flag stays true and the sink still references the closed handle, so later
logging calls do attempt writes through it (and those writes fail). -/
theorem changeFilePath_open_failure_leaves_enabled
    (fs : FS) (hp : Heap) (ml : Logger) (newPath : String) (f : FileId)
    (hne : ml.config.LogFilePath ≠ newPath) (hflag : ml.config.LogToFile = true)
    (hw : ml.fileWriter = some f) (hopen : hp.isOpen f = true)
    (hclose : fs.closeOk = true)
    (hfail : fs.mkdirOk = false ∨ (fs.mkdirOk = true ∧ fs.openOk = false)) :
    exOk (ChangeFilePath fs (hp, ml) newPath).1 = false
    ∧ (ChangeFilePath fs (hp, ml) newPath).2.2 = ml
    ∧ Heap.isOpen (ChangeFilePath fs (hp, ml) newPath).2.1 f = false := by
  rcases hfail with hmk | ⟨hmk, hop⟩
  · have hstep : ChangeFilePath fs (hp, ml) newPath =
        (Except.error ("failed to create directory for new log file"),
          { hp with files := hp.files.set f false }, ml) := by
      simp [ChangeFilePath, hne, hflag, hw, Heap.closeFile, hopen, hclose, hmk]
    rw [hstep]
    exact ⟨rfl, rfl, isOpen_set_false hp f⟩
  · have hstep : ChangeFilePath fs (hp, ml) newPath =
        (Except.error ("failed to open new log file"),
          { hp with files := hp.files.set f false }, ml) := by
      simp [ChangeFilePath, hne, hflag, hw, Heap.closeFile, hopen, hclose, hmk, hop]
    rw [hstep]
    exact ⟨rfl, rfl, isOpen_set_false hp f⟩

/-- Claim C3 witness: the amended statement instantiated on the concrete
logger with a failing open: error returned, Logger untouched, old handle
closed. -/
theorem changeFilePath_open_failure_witness :
    exOk (ChangeFilePath fsNoOpen st0 ("d.log")).1 = false
    ∧ (ChangeFilePath fsNoOpen st0 ("d.log")).2.2 = st0.2 :=
  ⟨(changeFilePath_open_failure_leaves_enabled fsNoOpen st0.1 st0.2 ("d.log") 0
      (by decide) (by decide) (by decide) (by decide) (by decide)
      (Or.inr ⟨by decide, by decide⟩)).1,
   (changeFilePath_open_failure_leaves_enabled fsNoOpen st0.1 st0.2 ("d.log") 0
      (by decide) (by decide) (by decide) (by decide) (by decide)
      (Or.inr ⟨by decide, by decide⟩)).2.1⟩

/-- Claim C2: evaluation at the failing input.  On the concrete logger whose
file sink is active, EnableFile(false) closes the handle and clears the flag;
but the subsequent EnableFile(true) is a complete no-op: it returns ok while
the flag stays false, the handle stays closed, the state is bit-for-bit the
disabled state, and even an Error-level call invokes no file sink — the code
never re-opens the path (its re-open branch also requires `fileLogger == nil`
and the flag assignment sits inside that branch), contradicting both the
spec's state machine and the function's own comment. -/
theorem enableFile_reenable_is_noop :
    exOk (EnableFile fsOK st0 false).1 = true
    ∧ (EnableFile fsOK st0 false).2.2.config.LogToFile = false
    ∧ Heap.isOpen (EnableFile fsOK st0 false).2.1 0 = false
    ∧ exOk (EnableFile fsOK (EnableFile fsOK st0 false).2 true).1 = true
    ∧ (EnableFile fsOK (EnableFile fsOK st0 false).2 true).2 = (EnableFile fsOK st0 false).2
    ∧ (EnableFile fsOK (EnableFile fsOK st0 false).2 true).2.2.config.LogToFile = false
    ∧ fileInvoked (EnableFile fsOK (EnableFile fsOK st0 false).2 true).2.1
        (EnableFile fsOK (EnableFile fsOK st0 false).2 true).2.2 LevelError ("m") [] = false := by
  exact ⟨rfl, rfl, rfl, rfl, rfl, rfl, rfl⟩

/-- Claim C1: for every level L and current gate threshold T of a sink, a
record at level L is emitted by that sink iff L >= T at the moment the
Enabled/Handle pair runs; and SetConsoleLevel/SetFileLevel immediately change
the outcome of the next logging call without reconstructing the sink (the
Logger record, sinks included, is unchanged by the level set). -/
theorem gate_threshold_controls_emission (hp : Heap) (ml : Logger)
    (level : Int) (msg : String) (attrs : List String) :
    (∀ g, ml.config.LogToConsole = true → ml.consoleLogger = some ⟨some g⟩ →
      (consoleEmitted hp ml level msg attrs = true ↔ hp.getGate g ≤ level))
    ∧ (∀ g f, ml.config.LogToFile = true → ml.fileLogger = some ⟨some g, f⟩ →
      (fileEmitted hp ml level msg attrs = true ↔ hp.getGate g ≤ level))
    ∧ (∀ g T, ml.consoleLevelVar = some g → g < hp.gates.length →
      ((SetConsoleLevel (hp, ml) T).2 = ml
        ∧ (ml.config.LogToConsole = true → ml.consoleLogger = some ⟨some g⟩ →
          (consoleEmitted (SetConsoleLevel (hp, ml) T).1 (SetConsoleLevel (hp, ml) T).2
              level msg attrs = true ↔ T ≤ level))))
    ∧ (∀ g f T, ml.fileLevelVar = some g → g < hp.gates.length →
      ((SetFileLevel (hp, ml) T).2 = ml
        ∧ (ml.config.LogToFile = true → ml.fileLogger = some ⟨some g, f⟩ →
          (fileEmitted (SetFileLevel (hp, ml) T).1 (SetFileLevel (hp, ml) T).2
              level msg attrs = true ↔ T ≤ level)))) := by
  refine ⟨?_, ?_, ?_, ?_⟩
  · intro g hflag hco
    by_cases hc : hp.getGate g ≤ level
    · simp [consoleEmitted, logCall, hflag, hco, TxtColoredHandler.Enabled, hc]
    · simp [consoleEmitted, logCall, hflag, hco, TxtColoredHandler.Enabled, hc]
  · intro g f hflag hfl
    by_cases hc : hp.getGate g ≤ level
    · simp [fileEmitted, logCall, hflag, hfl, JSONHandler.Enabled, hc]
    · simp [fileEmitted, logCall, hflag, hfl, JSONHandler.Enabled, hc]
  · intro g T hvar hlt
    have hset : SetConsoleLevel (hp, ml) T = (hp.setGate g T, ml) := by
      simp [SetConsoleLevel, hvar]
    rw [hset]
    refine ⟨rfl, ?_⟩
    intro hflag hco
    by_cases hc : T ≤ level
    · simp [consoleEmitted, logCall, hflag, hco, TxtColoredHandler.Enabled,
        getGate_setGate_self hp g T hlt, hc]
    · simp [consoleEmitted, logCall, hflag, hco, TxtColoredHandler.Enabled,
        getGate_setGate_self hp g T hlt, hc]
  · intro g f T hvar hlt
    have hset : SetFileLevel (hp, ml) T = (hp.setGate g T, ml) := by
      simp [SetFileLevel, hvar]
    rw [hset]
    refine ⟨rfl, ?_⟩
    intro hflag hfl
    by_cases hc : T ≤ level
    · simp [fileEmitted, logCall, hflag, hfl, JSONHandler.Enabled,
        getGate_setGate_self hp g T hlt, hc]
    · simp [fileEmitted, logCall, hflag, hfl, JSONHandler.Enabled,
        getGate_setGate_self hp g T hlt, hc]

/-- Claim C1 witness: on the concrete logger (both thresholds Info), an Info
record passes the console gate, and after SetFileLevel(Warn) an Info record
no longer passes the file gate while the Logger record is unchanged. -/
theorem gate_threshold_witness :
    consoleEmitted st0.1 st0.2 LevelInfo ("m") [] = true
    ∧ (SetFileLevel st0 LevelWarn).2 = st0.2
    ∧ fileEmitted (SetFileLevel st0 LevelWarn).1 (SetFileLevel st0 LevelWarn).2
        LevelInfo ("m") [] = false := by
  have h1 := ((gate_threshold_controls_emission st0.1 st0.2 LevelInfo ("m") []).1
    0 (by decide) (by decide)).mpr (by decide)
  have h4 := (gate_threshold_controls_emission st0.1 st0.2 LevelInfo ("m") []).2.2.2
    1 0 LevelWarn (by decide) (by decide)
  refine ⟨h1, h4.1, ?_⟩
  have h5 := h4.2 (by decide) (by decide)
  exact Bool.eq_false_iff.mpr (fun hb => absurd (h5.mp hb) (by decide))

/-- Claim C6: for every record the console sink emits, the written line is a
bracket, the ANSI escape with the level's color code, the three-letter
abbreviation, the ANSI reset, bracket-space, the message, then a space and
the space-joined attribute value renderings when attributes are present, then
a newline — with colors Debug=35, Info=34, Warn=33, Error=31, and
abbreviations DBG/INF/WRN/ERR for the four named levels; any other level gets
color 37. -/
theorem console_line_format (level : Int) (msg : String) (attrs : List String) :
    (level = LevelDebug ∨ level = LevelInfo ∨ level = LevelWarn ∨ level = LevelError →
      TxtColoredHandler.Handle level msg attrs = specConsoleLine level msg attrs)
    ∧ (level ≠ LevelDebug → level ≠ LevelInfo → level ≠ LevelWarn → level ≠ LevelError →
      getLevelColor level = 37) := by
  constructor
  · intro hl
    rcases hl with h | h | h | h <;> subst h <;> cases attrs <;>
      simp [TxtColoredHandler.Handle, specConsoleLine, getLevelColor, getLevelName,
        specColorCode, specAbbrev, LevelDebug, LevelInfo, LevelWarn, LevelError,
        String.append_assoc] <;>
      rw [← String.append_assoc] <;>
      rfl
  · intro h1 h2 h3 h4
    simp [getLevelColor, h1, h2, h3, h4]

/-- Claim C6 witness: a Warn record with one attribute renders to the exact
expected bytes, and a level outside the four named ones gets color 37. -/
theorem console_line_format_witness :
    TxtColoredHandler.Handle LevelWarn ("disk low") [("42")] =
      ("[\x1b[33mWRN\x1b[0m] disk low 42\n")
    ∧ getLevelColor 2 = 37 := by
  constructor
  · rw [(console_line_format LevelWarn ("disk low") [("42")]).1
      (Or.inr (Or.inr (Or.inl rfl)))]
    rfl
  · exact (console_line_format 2 ("") []).2 (by decide) (by decide) (by decide) (by decide)

/-- Claim C8: a severity method invokes a sink only while that sink's owning
enabled flag is true, and this holds in every state reached by any sequence
of runtime-control operations from any state. -/
theorem sink_invoked_only_when_enabled (st : Heap × Logger) (ops : List LogOp)
    (level : Int) (msg : String) (attrs : List String) :
    (consoleInvoked (applyOps st ops).1 (applyOps st ops).2 level msg attrs = true →
      (applyOps st ops).2.config.LogToConsole = true)
    ∧ (fileInvoked (applyOps st ops).1 (applyOps st ops).2 level msg attrs = true →
      (applyOps st ops).2.config.LogToFile = true) := by
  constructor
  · intro h
    by_cases hc : (applyOps st ops).2.config.LogToConsole = true
    · exact hc
    · rw [Bool.not_eq_true] at hc
      simp [consoleInvoked, logCall, hc] at h
  · intro h
    by_cases hc : (applyOps st ops).2.config.LogToFile = true
    · exact hc
    · rw [Bool.not_eq_true] at hc
      simp [fileInvoked, logCall, hc] at h

/-- Claim C8 witness: after a disable/re-enable of the console and a file
threshold change on the concrete logger, the console sink is invoked and
indeed its flag is true. -/
theorem sink_invoked_witness :
    consoleInvoked
      (applyOps st0 [LogOp.enableConsole false, LogOp.enableConsole true,
        LogOp.setFileLevel LevelWarn]).1
      (applyOps st0 [LogOp.enableConsole false, LogOp.enableConsole true,
        LogOp.setFileLevel LevelWarn]).2 LevelInfo ("m") [] = true
    ∧ (applyOps st0 [LogOp.enableConsole false, LogOp.enableConsole true,
        LogOp.setFileLevel LevelWarn]).2.config.LogToConsole = true :=
  ⟨by decide,
   (sink_invoked_only_when_enabled st0
      [LogOp.enableConsole false, LogOp.enableConsole true, LogOp.setFileLevel LevelWarn]
      LevelInfo ("m") []).1 (by decide)⟩

/-- Claim C10: a successful ChangeFilePath preserves the file level gate: the
rebuilt sink holds the same `fileLevelVar` gate instance, no gate value
changes, GetFileLevel reads the same value right after the call as right
before it, and subsequent file-sink gating continues at the unchanged
threshold. -/
theorem changeFilePath_preserves_file_gate
    (fs : FS) (hp : Heap) (ml : Logger) (newPath : String) (f : FileId)
    (hne : ml.config.LogFilePath ≠ newPath) (hflag : ml.config.LogToFile = true)
    (hw : ml.fileWriter = some f) (hopen : hp.isOpen f = true)
    (h1 : fs.closeOk = true) (h2 : fs.mkdirOk = true) (h3 : fs.openOk = true) :
    exOk (ChangeFilePath fs (hp, ml) newPath).1 = true
    ∧ (ChangeFilePath fs (hp, ml) newPath).2.2.fileLevelVar = ml.fileLevelVar
    ∧ (ChangeFilePath fs (hp, ml) newPath).2.1.gates = hp.gates
    ∧ GetFileLevel (ChangeFilePath fs (hp, ml) newPath).2 = GetFileLevel (hp, ml)
    ∧ (∃ f2, (ChangeFilePath fs (hp, ml) newPath).2.2.fileLogger =
        some ⟨ml.fileLevelVar, f2⟩)
    ∧ (∀ g level msg attrs, ml.fileLevelVar = some g →
        (fileEmitted (ChangeFilePath fs (hp, ml) newPath).2.1
            (ChangeFilePath fs (hp, ml) newPath).2.2 level msg attrs = true ↔
          hp.getGate g ≤ level)) := by
  have hstep : ChangeFilePath fs (hp, ml) newPath =
      (Except.ok (),
        { gates := hp.gates, files := (hp.files.set f false) ++ [true] },
        { ml with config := { ml.config with LogFilePath := newPath },
                  fileWriter := some (hp.files.set f false).length,
                  fileLogger := some ⟨ml.fileLevelVar, (hp.files.set f false).length⟩ }) := by
    simp [ChangeFilePath, hne, hflag, hw, Heap.closeFile, hopen, h1, h2, h3, Heap.openFile]
  rw [hstep]
  refine ⟨rfl, rfl, rfl, ?_, ⟨(hp.files.set f false).length, rfl⟩, ?_⟩
  · cases hv : ml.fileLevelVar with
    | none => simp [GetFileLevel, hv]
    | some g => simp [GetFileLevel, hv, Heap.getGate]
  · intro g level msg attrs hv
    have hgate : Heap.getGate ⟨hp.gates, hp.files.set f false ++ [true]⟩ g = hp.getGate g := rfl
    by_cases hc : hp.getGate g ≤ level
    · simp [fileEmitted, logCall, hflag, hv, JSONHandler.Enabled, hgate, hc]
    · simp [fileEmitted, logCall, hflag, hv, JSONHandler.Enabled, hgate, hc]

/-- Claim C10 witness: on the concrete logger, after SetFileLevel(Warn) and a
successful path change, GetFileLevel still reads Warn and the rebuilt sink
reuses gate instance 1. -/
theorem changeFilePath_preserves_file_gate_witness :
    exOk (ChangeFilePath fsOK (SetFileLevel st0 LevelWarn) ("b.log")).1 = true
    ∧ GetFileLevel (ChangeFilePath fsOK (SetFileLevel st0 LevelWarn) ("b.log")).2 =
        GetFileLevel (SetFileLevel st0 LevelWarn)
    ∧ (∃ f2, (ChangeFilePath fsOK (SetFileLevel st0 LevelWarn) ("b.log")).2.2.fileLogger =
        some ⟨(SetFileLevel st0 LevelWarn).2.fileLevelVar, f2⟩) := by
  have h := changeFilePath_preserves_file_gate fsOK (SetFileLevel st0 LevelWarn).1
    (SetFileLevel st0 LevelWarn).2 ("b.log") 0
    (by decide) (by decide) (by decide) (by decide) (by decide) (by decide) (by decide)
  exact ⟨h.1, h.2.2.2.1, h.2.2.2.2.1⟩
